import Mathlib

/-!
Shallow embedding of the structure-from-motion core in
`Research and Development Projects/Structure From Motion/structureFromMotion.py`.

Pixel coordinates, velocities and the camera configuration are modelled as
exact rationals.  Two layers are given:

* a plain rational layer for the arithmetic helpers that the source keeps
  free of division (`_distributeDisparity`, `_calcRotationalDisparities`,
  `_calcWeightedDisparity`) together with `_calcDistance`; theorems use this
  layer on the finite, nonzero-divisor paths;
* an `NpVal` layer that additionally tracks the non-finite values (NaN and
  the infinities) that numpy float arithmetic produces on division by zero,
  together with the numpy broadcasting rule for 1-D array addition; theorems
  about the degenerate paths of `get_frame_points` use this layer.

`np.linalg.norm` takes a real square root, which is irrational for most
pixel positions; the composed functions therefore receive the value of that
norm as an explicit argument `nrm`, constrained in each theorem by
`nrm * nrm = normSq (center - origin)` and a sign condition, which pins
`nrm` to the unique nonnegative square root whenever one exists in `ℚ`.
-/

namespace StructureFromMotion

/-- 2D vectors (pixel positions, disparities, radial directions). -/
abbrev Vec2 := ℚ × ℚ

/-- 3D vectors (camera position, velocity, angular velocity). -/
abbrev Vec3 := ℚ × ℚ × ℚ

/-- Componentwise subtraction of 2D vectors (numpy `a - b`). -/
def sub2 (a b : Vec2) : Vec2 := (a.1 - b.1, a.2 - b.2)

/-- Componentwise addition of 2D vectors (numpy `a + b`). -/
def add2 (a b : Vec2) : Vec2 := (a.1 + b.1, a.2 + b.2)

/-- Scalar multiple of a 2D vector (numpy `c * a`). -/
def smul2 (c : ℚ) (a : Vec2) : Vec2 := (c * a.1, c * a.2)

/-- Componentwise addition of 3D vectors (numpy `a + b`). -/
def add3 (a b : Vec3) : Vec3 := (a.1 + b.1, a.2.1 + b.2.1, a.2.2 + b.2.2)

/-- Scalar multiple of a 3D vector (numpy `c * a`). -/
def smul3 (c : ℚ) (a : Vec3) : Vec3 := (c * a.1, c * a.2.1, c * a.2.2)

/-- Dot product of 3D vectors. -/
def dot3 (a b : Vec3) : ℚ := a.1 * b.1 + a.2.1 * b.2.1 + a.2.2 * b.2.2

/-- Squared Euclidean norm of a 2D vector. -/
def normSq (v : Vec2) : ℚ := v.1 * v.1 + v.2 * v.2

/-- `r` is the unit radial direction that `_calcVanishingPoint` computes for
a feature at `disparity_origin`: the vector `center - origin` divided by its
Euclidean norm `n`.  The norm is kept existential because the square root of
a rational is rational only when `normSq` is a square; every pixel that the
theorems instantiate has a rational norm.  The condition `0 < n` encodes
that `origin` is distinct from `center`. -/
def IsVanishingDir (center origin r : Vec2) : Prop :=
  ∃ n : ℚ, 0 < n ∧ n * n = normSq (sub2 center origin) ∧
    sub2 center origin = smul2 n r

/-- Source `_distributeDisparity(disparity, radial_vector)` (lines 164-181):
`x_disparity = -disparity[0]`, `y_disparity = -disparity[1]`,
`z_disparity = radial_vector[0] * x_disparity + radial_vector[1] * y_disparity`.
Returned in the source order `(x, y, z)`. -/
def distributeDisparity (disparity radial_vector : Vec2) : ℚ × ℚ × ℚ :=
  let x_disparity := -disparity.1
  let y_disparity := -disparity.2
  let z_disparity := radial_vector.1 * x_disparity + radial_vector.2 * y_disparity
  (x_disparity, y_disparity, z_disparity)

/-- Source `_calcRotationalDisparities(radial_vector, x_disparity, y_disparity)`
(lines 183-200): `perpendicular_vector = [radial_vector[1], -radial_vector[0]]`,
`roll = perp[0] * x_disparity + perp[1] * y_disparity`, `yaw = x_disparity`,
`pitch = y_disparity`.  Returned in the source order `(roll, yaw, pitch)`.
Note the caller in `calculate_distance_from_disparity` passes `z_disparity`
as the `y_disparity` argument. -/
def calcRotationalDisparities (radial_vector : Vec2) (x_disparity y_disparity : ℚ) :
    ℚ × ℚ × ℚ :=
  let perpendicular_vector : Vec2 := (radial_vector.2, -radial_vector.1)
  let roll_disparity :=
    perpendicular_vector.1 * x_disparity + perpendicular_vector.2 * y_disparity
  let yaw_disparity := x_disparity
  let pitch_disparity := y_disparity
  (roll_disparity, yaw_disparity, pitch_disparity)

/-- Source `_calcWeightedDisparity(x, y, z, pitch, yaw, roll)` (lines 202-220):
`x * camera_vel[0] + y * camera_vel[1] + z * camera_vel[2]
 + pitch * camera_rvel[0] + yaw * camera_rvel[1] + roll * camera_rvel[2]`. -/
def calcWeightedDisparity (camera_vel camera_rvel : Vec3)
    (x_disparity y_disparity z_disparity pitch_disparity yaw_disparity roll_disparity : ℚ) : ℚ :=
  x_disparity * camera_vel.1 +
  y_disparity * camera_vel.2.1 +
  z_disparity * camera_vel.2.2 +
  pitch_disparity * camera_rvel.1 +
  yaw_disparity * camera_rvel.2.1 +
  roll_disparity * camera_rvel.2.2

/-- Source `_calcDistance(weighted_disparity)` (lines 222-233):
`distance = self.focal_length / (weighted_disparity * 10)`.  Used by the
theorems only under a `weighted_disparity ≠ 0` hypothesis; the zero-divisor
behaviour of the source is modelled by `calcDistanceNp`. -/
def calcDistance (focal_length weighted_disparity : ℚ) : ℚ :=
  focal_length / (weighted_disparity * 10)

/-- The weighted disparity computed inside `calculate_distance_from_disparity`
(lines 124-151), with the unit radial vector passed explicitly (the source
obtains it from `_calcVanishingPoint`).  As in the source, the second
disparity argument handed to `_calcRotationalDisparities` is `z_disparity`. -/
def weightedOfDisparity (camera_vel camera_rvel : Vec3) (radial_vector disparity : Vec2) : ℚ :=
  let xyz := distributeDisparity disparity radial_vector
  let rot := calcRotationalDisparities radial_vector xyz.1 xyz.2.2
  calcWeightedDisparity camera_vel camera_rvel xyz.1 xyz.2.1 xyz.2.2 rot.2.2 rot.2.1 rot.1

/-- Source `calculate_distance_from_disparity(disparity_origin, disparity)`
(lines 124-151) after the vanishing-point normalisation, with the unit
radial vector passed explicitly. -/
def calculate_distance_from_disparity (camera_vel camera_rvel : Vec3)
    (focal_length : ℚ) (radial_vector disparity : Vec2) : ℚ :=
  calcDistance focal_length (weightedOfDisparity camera_vel camera_rvel radial_vector disparity)

/-- Source `update()` (lines 290-292):
`self.camera_pos = self.camera_pos + self.camera_vel * dt`, with the global
`dt` passed as an explicit argument. -/
def update (camera_pos camera_vel : Vec3) (dt : ℚ) : Vec3 :=
  add3 camera_pos (smul3 dt camera_vel)

/-- A numpy float scalar: either a finite exact value or a non-finite value
(NaN or an infinity).  Rounding and overflow of finite values are not
modelled.  The two non-finite kinds are collapsed because every arithmetic
operation this program performs maps them to a non-finite result: sums,
differences and products with a NaN or infinite operand are non-finite, a
finite value divided by zero is infinite, and the only divisors in the
program (the radial norm, `weighted * 10`, `focal_length * frame size`) are
never infinite, so the finite-over-infinite case producing zero is
unreachable. -/
inductive NpVal where
  | fin : ℚ → NpVal
  | nonfin : NpVal
deriving DecidableEq

instance : Inhabited NpVal := ⟨NpVal.nonfin⟩

/-- Numpy addition on scalars. -/
def NpVal.add : NpVal → NpVal → NpVal
  | NpVal.fin a, NpVal.fin b => NpVal.fin (a + b)
  | _, _ => NpVal.nonfin

/-- Numpy multiplication on scalars (a product with a non-finite operand is
NaN or an infinity, hence non-finite, including `0 * inf = nan`). -/
def NpVal.mul : NpVal → NpVal → NpVal
  | NpVal.fin a, NpVal.fin b => NpVal.fin (a * b)
  | _, _ => NpVal.nonfin

/-- Numpy negation on scalars. -/
def NpVal.neg : NpVal → NpVal
  | NpVal.fin a => NpVal.fin (-a)
  | _ => NpVal.nonfin

/-- Numpy division on scalars: division by zero or by NaN, and division of a
non-finite numerator, give a non-finite result. -/
def NpVal.div : NpVal → NpVal → NpVal
  | NpVal.fin a, NpVal.fin b => if b = 0 then NpVal.nonfin else NpVal.fin (a / b)
  | _, _ => NpVal.nonfin

/-- Source `_calcVanishingPoint(disparity_origin)` (lines 153-162):
`radial_vector = (self.center - disparity_origin) / np.linalg.norm(...)`.
The value `nrm` of the Euclidean norm is passed explicitly (see the module
comment); when the origin coincides with the centre the norm is `0` and the
division yields NaN components. -/
def calcVanishingPointNp (center disparity_origin : Vec2) (nrm : ℚ) : NpVal × NpVal :=
  (NpVal.div (NpVal.fin (center.1 - disparity_origin.1)) (NpVal.fin nrm),
   NpVal.div (NpVal.fin (center.2 - disparity_origin.2)) (NpVal.fin nrm))

/-- `_distributeDisparity` on the numpy-scalar layer; the disparity itself is
a difference of pixel positions and is always finite. -/
def distributeDisparityNp (disparity : Vec2) (radial_vector : NpVal × NpVal) :
    NpVal × NpVal × NpVal :=
  let x_disparity := NpVal.fin (-disparity.1)
  let y_disparity := NpVal.fin (-disparity.2)
  let z_disparity :=
    NpVal.add (NpVal.mul radial_vector.1 x_disparity) (NpVal.mul radial_vector.2 y_disparity)
  (x_disparity, y_disparity, z_disparity)

/-- `_calcRotationalDisparities` on the numpy-scalar layer. -/
def calcRotationalDisparitiesNp (radial_vector : NpVal × NpVal)
    (x_disparity y_disparity : NpVal) : NpVal × NpVal × NpVal :=
  let perpendicular_vector := (radial_vector.2, NpVal.neg radial_vector.1)
  let roll_disparity :=
    NpVal.add (NpVal.mul perpendicular_vector.1 x_disparity)
      (NpVal.mul perpendicular_vector.2 y_disparity)
  (roll_disparity, x_disparity, y_disparity)

/-- `_calcWeightedDisparity` on the numpy-scalar layer; the camera velocities
are finite configuration data. -/
def calcWeightedDisparityNp (camera_vel camera_rvel : Vec3)
    (x_disparity y_disparity z_disparity pitch_disparity yaw_disparity roll_disparity : NpVal) :
    NpVal :=
  NpVal.add (NpVal.add (NpVal.add (NpVal.add (NpVal.add
    (NpVal.mul x_disparity (NpVal.fin camera_vel.1))
    (NpVal.mul y_disparity (NpVal.fin camera_vel.2.1)))
    (NpVal.mul z_disparity (NpVal.fin camera_vel.2.2)))
    (NpVal.mul pitch_disparity (NpVal.fin camera_rvel.1)))
    (NpVal.mul yaw_disparity (NpVal.fin camera_rvel.2.1)))
    (NpVal.mul roll_disparity (NpVal.fin camera_rvel.2.2))

/-- `_calcDistance` on the numpy-scalar layer: `focal_length / (weighted * 10)`;
a zero weighted disparity makes the result non-finite (numpy gives `inf`). -/
def calcDistanceNp (focal_length : ℚ) (weighted_disparity : NpVal) : NpVal :=
  NpVal.div (NpVal.fin focal_length) (NpVal.mul weighted_disparity (NpVal.fin 10))

/-- `calculate_distance_from_disparity(disparity_origin, disparity)` on the
numpy-scalar layer, including the vanishing-point normalisation; `self.center`
is `target_scale / 2` as set in `_setupMisc`.  As in the source, the second
disparity argument of `_calcRotationalDisparities` is `z_disparity`. -/
def calculate_distance_from_disparityNp (camera_vel camera_rvel : Vec3)
    (focal_length : ℚ) (target_scale : Vec2) (nrm : ℚ)
    (disparity_origin disparity : Vec2) : NpVal :=
  let center : Vec2 := (target_scale.1 / 2, target_scale.2 / 2)
  let radial_vector := calcVanishingPointNp center disparity_origin nrm
  let xyz := distributeDisparityNp disparity radial_vector
  let rot := calcRotationalDisparitiesNp radial_vector xyz.1 xyz.2.2
  let weighted :=
    calcWeightedDisparityNp camera_vel camera_rvel xyz.1 xyz.2.1 xyz.2.2 rot.2.2 rot.2.1 rot.1
  calcDistanceNp focal_length weighted

/-- Source `calculate_camera_space_position_of_feature(new, old)` (lines
235-253): computes the disparity `new - old`, the distance, and the
back-projection `x = (new[0] - w/2) * distance / (focal * w) * 1000` (and
analogously for `y`), returning `np.array([x, y, distance, new[0], new[1]])`
modelled as a five-element list. -/
def calculate_camera_space_position_of_featureNp (camera_vel camera_rvel : Vec3)
    (focal_length : ℚ) (target_scale : Vec2) (nrm : ℚ) (new old : Vec2) : List NpVal :=
  let disparity := sub2 new old
  let distance :=
    calculate_distance_from_disparityNp camera_vel camera_rvel focal_length target_scale
      nrm old disparity
  let x :=
    NpVal.mul
      (NpVal.div (NpVal.mul (NpVal.fin (new.1 - target_scale.1 / 2)) distance)
        (NpVal.fin (focal_length * target_scale.1)))
      (NpVal.fin 1000)
  let y :=
    NpVal.mul
      (NpVal.div (NpVal.mul (NpVal.fin (new.2 - target_scale.2 / 2)) distance)
        (NpVal.fin (focal_length * target_scale.2)))
      (NpVal.fin 1000)
  [x, y, distance, NpVal.fin new.1, NpVal.fin new.2]

/-- Elementwise numpy addition of two 1-D arrays with broadcasting: equal
lengths add componentwise, a length-one operand is stretched, and any other
pair of shapes raises `ValueError`, modelled as `none`. -/
def npBroadcastAdd (a b : List NpVal) : Option (List NpVal) :=
  if a.length = b.length then some (List.zipWith NpVal.add a b)
  else if b.length = 1 then some (a.map fun v => NpVal.add v b.headI)
  else if a.length = 1 then some (b.map fun v => NpVal.add a.headI v)
  else none

/-- Source `get_frame_points` per-feature loop (lines 265-288): for each
tracked pair `(new, old)` compute the camera-space position; in world-space
mode (`find_in_camera_space = False`) add `self.camera_pos` to it, which in
numpy is a broadcast addition and raises when the shapes are incompatible —
an uncaught exception aborts the whole call, modelled as `none`.  Each pair
carries the value `nrm` of the radial norm for its `old` pixel (see the
module comment). -/
def get_frame_pointsNp (find_in_camera_space : Bool) (camera_pos : List NpVal)
    (camera_vel camera_rvel : Vec3) (focal_length : ℚ) (target_scale : Vec2) :
    List (Vec2 × Vec2 × ℚ) → Option (List (List NpVal))
  | [] => some []
  | (new, old, nrm) :: rest =>
    let cam_pos :=
      calculate_camera_space_position_of_featureNp camera_vel camera_rvel focal_length
        target_scale nrm new old
    let point? := if find_in_camera_space then some cam_pos else npBroadcastAdd cam_pos camera_pos
    match point?, get_frame_pointsNp find_in_camera_space camera_pos camera_vel camera_rvel
        focal_length target_scale rest with
    | some p, some ps => some (p :: ps)
    | _, _ => none

/-! Reduction lemmas for the numpy-scalar operations. -/

@[simp]
theorem NpVal.add_fin_fin (a b : ℚ) : NpVal.add (NpVal.fin a) (NpVal.fin b) = NpVal.fin (a + b) :=
  rfl

@[simp]
theorem NpVal.add_nonfin_left (v : NpVal) : NpVal.add NpVal.nonfin v = NpVal.nonfin := by
  cases v <;> rfl

@[simp]
theorem NpVal.add_nonfin_right (v : NpVal) : NpVal.add v NpVal.nonfin = NpVal.nonfin := by
  cases v <;> rfl

@[simp]
theorem NpVal.mul_fin_fin (a b : ℚ) : NpVal.mul (NpVal.fin a) (NpVal.fin b) = NpVal.fin (a * b) :=
  rfl

@[simp]
theorem NpVal.mul_nonfin_left (v : NpVal) : NpVal.mul NpVal.nonfin v = NpVal.nonfin := by
  cases v <;> rfl

@[simp]
theorem NpVal.mul_nonfin_right (v : NpVal) : NpVal.mul v NpVal.nonfin = NpVal.nonfin := by
  cases v <;> rfl

@[simp]
theorem NpVal.neg_fin (a : ℚ) : NpVal.neg (NpVal.fin a) = NpVal.fin (-a) := rfl

@[simp]
theorem NpVal.neg_nonfin : NpVal.neg NpVal.nonfin = NpVal.nonfin := rfl

@[simp]
theorem NpVal.div_fin_zero (a : ℚ) :
    NpVal.div (NpVal.fin a) (NpVal.fin 0) = NpVal.nonfin := by
  simp [NpVal.div]

@[simp]
theorem NpVal.div_fin_of_ne (a b : ℚ) (h : b ≠ 0) :
    NpVal.div (NpVal.fin a) (NpVal.fin b) = NpVal.fin (a / b) := by
  simp [NpVal.div, h]

@[simp]
theorem NpVal.div_nonfin_left (v : NpVal) : NpVal.div NpVal.nonfin v = NpVal.nonfin := by
  cases v <;> rfl

@[simp]
theorem NpVal.div_nonfin_right (v : NpVal) : NpVal.div v NpVal.nonfin = NpVal.nonfin := by
  cases v <;> rfl

/-- On a nonzero radial norm the numpy-layer distance computation agrees with
the rational-layer weighted disparity taken at the normalised radial vector. -/
theorem distanceNp_eq_fin (camera_vel camera_rvel : Vec3) (focal_length : ℚ)
    (target_scale : Vec2) (nrm : ℚ) (old disparity : Vec2) (hn : nrm ≠ 0) :
    calculate_distance_from_disparityNp camera_vel camera_rvel focal_length target_scale
        nrm old disparity =
      calcDistanceNp focal_length
        (NpVal.fin (weightedOfDisparity camera_vel camera_rvel
          ((target_scale.1 / 2 - old.1) / nrm, (target_scale.2 / 2 - old.2) / nrm) disparity)) := by
  simp only [calculate_distance_from_disparityNp, calcVanishingPointNp, distributeDisparityNp,
    calcRotationalDisparitiesNp, calcWeightedDisparityNp, weightedOfDisparity,
    distributeDisparity, calcRotationalDisparities, calcWeightedDisparity,
    NpVal.div_fin_of_ne _ _ hn, NpVal.neg_fin, NpVal.mul_fin_fin, NpVal.add_fin_fin]

/-! Claim theorems. -/

/-- C1: the claim states that inside `calculate_distance_from_disparity` the
rotational decomposition satisfies `roll = perp.x * x + perp.y * y`,
`yaw = x`, `pitch = y` with `y` the sign-flipped translational y component.
The source instead passes `z_disparity` as the `y_disparity` argument of
`_calcRotationalDisparities`, contradicting that function's own parameter
documentation.  At `center = (320,180)`, `previous = (340,180)` (radial
`(-1,0)`), `disparity = (0,1)` the decomposition gives `(x,y,z) = (0,-1,0)`;
the code computes rotational components `(roll,yaw,pitch) = (0,0,0)` while
the claimed formulas on `(x,y)` give `(-1,0,-1)`, and with
`cameraAngularVelocity = (1,0,0)` the composed weighted disparity is `0`,
not the `-1` the claim implies. -/
theorem C1_rotational_uses_z_for_y :
    IsVanishingDir (320, 180) (340, 180) (-1, 0) ∧
    distributeDisparity (0, 1) (-1, 0) = (0, -1, 0) ∧
    calcRotationalDisparities (-1, 0) 0 0 = (0, 0, 0) ∧
    calcRotationalDisparities (-1, 0) 0 (-1) = (-1, 0, -1) ∧
    calcRotationalDisparities (-1, 0) 0 0 ≠ calcRotationalDisparities (-1, 0) 0 (-1) ∧
    weightedOfDisparity (0, 0, 0) (1, 0, 0) (-1, 0) (0, 1) = 0 := by
  refine ⟨⟨20, by norm_num [normSq, sub2, smul2, Prod.ext_iff]⟩, ?_, ?_, ?_, ?_, ?_⟩ <;>
    norm_num [distributeDisparity, calcRotationalDisparities, weightedOfDisparity,
      calcWeightedDisparity, Prod.ext_iff]

/-- C4: for every previous pixel distinct from the frame centre, with unit
radial direction `r`, and every disparity `d`, the translational
decomposition produces exactly `x = -d.x`, `y = -d.y` and
`z = r.x * x + r.y * y`. -/
theorem C4_translational_decomposition (center origin r : Vec2)
    (h : IsVanishingDir center origin r) (d : Vec2) :
    (distributeDisparity d r).1 = -d.1 ∧
    (distributeDisparity d r).2.1 = -d.2 ∧
    (distributeDisparity d r).2.2 =
      r.1 * (distributeDisparity d r).1 + r.2 * (distributeDisparity d r).2.1 := by
  refine ⟨rfl, rfl, ?_⟩
  simp [distributeDisparity]

/-- Witness for C4 at `center = (320,180)`, `origin = (340,180)`,
`r = (-1,0)`, `d = (0,1)`. -/
theorem C4_witness :
    IsVanishingDir (320, 180) (340, 180) (-1, 0) ∧
    ((distributeDisparity (0, 1) (-1, 0)).1 = -(0 : ℚ) ∧
     (distributeDisparity (0, 1) (-1, 0)).2.1 = -(1 : ℚ) ∧
     (distributeDisparity (0, 1) (-1, 0)).2.2 =
       (-1 : ℚ) * (distributeDisparity (0, 1) (-1, 0)).1 +
         (0 : ℚ) * (distributeDisparity (0, 1) (-1, 0)).2.1) :=
  ⟨⟨20, by norm_num [normSq, sub2, smul2, Prod.ext_iff]⟩,
   C4_translational_decomposition (320, 180) (340, 180) (-1, 0)
     ⟨20, by norm_num [normSq, sub2, smul2, Prod.ext_iff]⟩ (0, 1)⟩

/-- C5: the concrete scenario `frameSize = (640,360)`, `center = (320,180)`,
`focalLength = 38.199`, `cameraVelocity = (0,0,1)`,
`cameraAngularVelocity = (0,0,0)`, `previousPixel = (340,180)`,
`currentPixel = (341,180)`: the disparity is `(1,0)`, the normalised radial
vector is `(-1,0)` (norm `20`), the decomposition gives `x = -1`, `y = 0`,
`z = 1`, the weighted disparity is `1`, the depth is
`38.199 / 10 = 3.8199`, and the emitted entry carries the back-projected
`camX = 105/32 = 3.28125` and `camY = 0`, equal to the back-projection
formula to within `10⁻⁶` (exactly, in fact). -/
theorem C5_scenario :
    sub2 (341, 180) (340, 180) = ((1 : ℚ), (0 : ℚ)) ∧
    IsVanishingDir ((640 : ℚ) / 2, (360 : ℚ) / 2) (340, 180) (-1, 0) ∧
    calcVanishingPointNp ((640 : ℚ) / 2, (360 : ℚ) / 2) (340, 180) 20 =
      (NpVal.fin (-1), NpVal.fin 0) ∧
    distributeDisparity (1, 0) (-1, 0) = (-1, 0, 1) ∧
    weightedOfDisparity (0, 0, 1) (0, 0, 0) (-1, 0) (1, 0) = 1 ∧
    calcDistance (38199 / 1000) 1 = 38199 / 10000 ∧
    calculate_camera_space_position_of_featureNp (0, 0, 1) (0, 0, 0) (38199 / 1000)
        (640, 360) 20 (341, 180) (340, 180) =
      [NpVal.fin (105 / 32), NpVal.fin 0, NpVal.fin (38199 / 10000),
       NpVal.fin 341, NpVal.fin 180] ∧
    |(105 / 32 : ℚ) -
        (341 - 640 / 2) * (38199 / 10000) / ((38199 / 1000) * 640) * 1000| ≤ 1 / 1000000 ∧
    |(0 : ℚ) - (180 - 360 / 2) * (38199 / 10000) / ((38199 / 1000) * 360) * 1000| ≤ 1 / 1000000 := by
  refine ⟨?_, ⟨20, by norm_num [normSq, sub2, smul2, Prod.ext_iff]⟩, ?_, ?_, ?_, ?_, ?_, ?_, ?_⟩ <;>
    norm_num [calculate_camera_space_position_of_featureNp, calculate_distance_from_disparityNp,
      calcVanishingPointNp, distributeDisparityNp, calcRotationalDisparitiesNp,
      calcWeightedDisparityNp, calcDistanceNp, weightedOfDisparity, distributeDisparity,
      calcRotationalDisparities, calcWeightedDisparity, calcDistance, sub2, Prod.ext_iff]

/-- C6: `update` advances the camera position by exactly one explicit Euler
step `position + velocity * dt`, componentwise; in particular
`position = (0,0,0)`, `velocity = (0,0,1)`, `dt = 0.05` gives
`(0,0,0.05)`. -/
theorem C6_advance :
    (∀ (camera_pos camera_vel : Vec3) (dt : ℚ),
        update camera_pos camera_vel dt =
          (camera_pos.1 + camera_vel.1 * dt, camera_pos.2.1 + camera_vel.2.1 * dt,
           camera_pos.2.2 + camera_vel.2.2 * dt)) ∧
    update (0, 0, 0) (0, 0, 1) (1 / 20) = (0, 0, 1 / 20) := by
  constructor
  · intro p v dt
    simp [update, add3, smul3, mul_comm]
  · norm_num [update, add3, smul3, Prod.ext_iff]

/-- C7: with world-space output selected the source adds `self.camera_pos`
(three components) to the five-component feature array
`[x, y, distance, new[0], new[1]]`; the shapes `(5,)` and `(3,)` are not
broadcast-compatible, so numpy raises `ValueError` and the call emits
nothing — the position is never offset and no point with a preserved source
pixel is produced.  Evaluated at `camera_pos = (0,0,0)`,
`previous = (340,180)`, `current = (341,180)`, `velocity = (0,0,1)`. -/
theorem C7_world_space_broadcast_error :
    npBroadcastAdd
        (calculate_camera_space_position_of_featureNp (0, 0, 1) (0, 0, 0) (38199 / 1000)
          (640, 360) 20 (341, 180) (340, 180))
        [NpVal.fin 0, NpVal.fin 0, NpVal.fin 0] = none ∧
    get_frame_pointsNp false [NpVal.fin 0, NpVal.fin 0, NpVal.fin 0] (0, 0, 1) (0, 0, 0)
        (38199 / 1000) (640, 360) [((341, 180), (340, 180), 20)] = none := by
  refine ⟨?_, ?_⟩ <;>
    norm_num [get_frame_pointsNp, npBroadcastAdd,
      calculate_camera_space_position_of_featureNp, calculate_distance_from_disparityNp,
      calcVanishingPointNp, distributeDisparityNp, calcRotationalDisparitiesNp,
      calcWeightedDisparityNp, calcDistanceNp, sub2]

/-- C2 counterexample: at `previousPixel = center = (320,180)` (radial norm
`0`), `currentPixel = (321,180)`, `cameraVelocity = (0,0,1)`, the code does
not fail and does not skip the feature: `get_frame_points` emits one entry
whose position components are all non-finite (NaN), refuting the claim that
resolution fails with `DegenerateRadialVector` with the feature skipped
rather than a NaN position propagated. -/
theorem C2_counterexample :
    (0 : ℚ) * 0 = normSq (sub2 ((640 : ℚ) / 2, (360 : ℚ) / 2) (320, 180)) ∧
    get_frame_pointsNp true [NpVal.fin 0, NpVal.fin 0, NpVal.fin 0] (0, 0, 1) (0, 0, 0)
        (38199 / 1000) (640, 360) [((321, 180), (320, 180), 0)] =
      some [[NpVal.nonfin, NpVal.nonfin, NpVal.nonfin, NpVal.fin 321, NpVal.fin 180]] := by
  refine ⟨by norm_num [normSq, sub2], ?_⟩
  norm_num [get_frame_pointsNp, calculate_camera_space_position_of_featureNp,
    calculate_distance_from_disparityNp, calcVanishingPointNp, distributeDisparityNp,
    calcRotationalDisparitiesNp, calcWeightedDisparityNp, calcDistanceNp, sub2]

/-- C2 (amended): if a feature's previous pixel position equals the frame
centre exactly, the radial normalisation divides a zero vector by a zero
norm; every position component of the resolved feature is non-finite (NaN),
and the entry is still emitted into the frame's results — there is no
`DegenerateRadialVector` failure and the feature is not skipped. -/
theorem C2_amended_nan_propagates (camera_vel camera_rvel : Vec3) (focal_length : ℚ)
    (target_scale : Vec2) (camera_pos : List NpVal) (new old : Vec2) (nrm : ℚ)
    (hold : old = (target_scale.1 / 2, target_scale.2 / 2))
    (hnrm : nrm * nrm = normSq (sub2 (target_scale.1 / 2, target_scale.2 / 2) old)) :
    calculate_camera_space_position_of_featureNp camera_vel camera_rvel focal_length
        target_scale nrm new old =
      [NpVal.nonfin, NpVal.nonfin, NpVal.nonfin, NpVal.fin new.1, NpVal.fin new.2] ∧
    get_frame_pointsNp true camera_pos camera_vel camera_rvel focal_length target_scale
        [(new, old, nrm)] =
      some [[NpVal.nonfin, NpVal.nonfin, NpVal.nonfin, NpVal.fin new.1, NpVal.fin new.2]] := by
  subst hold
  have h0 : nrm = 0 := by
    have h : nrm * nrm = 0 := by simpa [normSq, sub2] using hnrm
    exact mul_self_eq_zero.mp h
  subst h0
  have hcam : calculate_camera_space_position_of_featureNp camera_vel camera_rvel focal_length
      target_scale 0 new (target_scale.1 / 2, target_scale.2 / 2) =
      [NpVal.nonfin, NpVal.nonfin, NpVal.nonfin, NpVal.fin new.1, NpVal.fin new.2] := by
    simp [calculate_camera_space_position_of_featureNp, calculate_distance_from_disparityNp,
      calcVanishingPointNp, distributeDisparityNp, calcRotationalDisparitiesNp,
      calcWeightedDisparityNp, calcDistanceNp, sub2]
  exact ⟨hcam, by simp [get_frame_pointsNp, hcam]⟩

/-- Witness for C2 (amended) at the concrete degenerate input. -/
theorem C2_witness :
    ((320 : ℚ), (180 : ℚ)) = ((640 : ℚ) / 2, (360 : ℚ) / 2) ∧
    (0 : ℚ) * 0 = normSq (sub2 ((640 : ℚ) / 2, (360 : ℚ) / 2) (320, 180)) ∧
    get_frame_pointsNp true [NpVal.fin 0, NpVal.fin 0, NpVal.fin 0] (0, 0, 1) (0, 0, 0)
        (38199 / 1000) (640, 360) [((321, 180), (320, 180), 0)] =
      some [[NpVal.nonfin, NpVal.nonfin, NpVal.nonfin, NpVal.fin 321, NpVal.fin 180]] :=
  ⟨by norm_num [Prod.ext_iff], by norm_num [normSq, sub2],
   (C2_amended_nan_propagates (0, 0, 1) (0, 0, 0) (38199 / 1000) (640, 360)
      [NpVal.fin 0, NpVal.fin 0, NpVal.fin 0] (321, 180) (320, 180) 0
      (by norm_num [Prod.ext_iff]) (by norm_num [normSq, sub2])).2⟩

/-- C3 counterexample: with `cameraVelocity = cameraAngularVelocity = (0,0,0)`
the weighted disparity is `0`, yet resolution does not fail: at
`previousPixel = (340,180)`, `currentPixel = (341,180)` the division by zero
produces a non-finite depth and `get_frame_points` still emits the entry,
refuting the claim that `resolve` fails with `NonFiniteDepth` and the
feature is dropped. -/
theorem C3_counterexample :
    weightedOfDisparity (0, 0, 0) (0, 0, 0) (-1, 0) (1, 0) = 0 ∧
    get_frame_pointsNp true [NpVal.fin 0, NpVal.fin 0, NpVal.fin 0] (0, 0, 0) (0, 0, 0)
        (38199 / 1000) (640, 360) [((341, 180), (340, 180), 20)] =
      some [[NpVal.nonfin, NpVal.nonfin, NpVal.nonfin, NpVal.fin 341, NpVal.fin 180]] := by
  constructor
  · norm_num [weightedOfDisparity, distributeDisparity, calcRotationalDisparities,
      calcWeightedDisparity]
  · norm_num [get_frame_pointsNp, calculate_camera_space_position_of_featureNp,
      calculate_distance_from_disparityNp, calcVanishingPointNp, distributeDisparityNp,
      calcRotationalDisparitiesNp, calcWeightedDisparityNp, calcDistanceNp, sub2]

/-- C3 (amended): the depth is computed as `focalLength / (weighted * 10)`
with tuning constant `10`; with zero camera velocities the weighted
disparity is `0` for every radial vector and disparity, and a zero weighted
disparity makes the division non-finite (numpy `inf`), which is emitted in
the feature's entry rather than the feature being dropped — no
`NonFiniteDepth` failure exists in the code. -/
theorem C3_amended_nonfinite_depth_emitted (focal_length w : ℚ) (target_scale : Vec2)
    (camera_pos : List NpVal) (new old : Vec2) (nrm : ℚ) (radial disparity : Vec2)
    (hw : w ≠ 0)
    (hnrm : nrm * nrm = normSq (sub2 (target_scale.1 / 2, target_scale.2 / 2) old))
    (hn : 0 ≤ nrm) :
    calcDistanceNp focal_length (NpVal.fin w) = NpVal.fin (focal_length / (w * 10)) ∧
    weightedOfDisparity (0, 0, 0) (0, 0, 0) radial disparity = 0 ∧
    calcDistanceNp focal_length (NpVal.fin 0) = NpVal.nonfin ∧
    get_frame_pointsNp true camera_pos (0, 0, 0) (0, 0, 0) focal_length target_scale
        [(new, old, nrm)] =
      some [[NpVal.nonfin, NpVal.nonfin, NpVal.nonfin, NpVal.fin new.1, NpVal.fin new.2]] := by
  refine ⟨?_, ?_, ?_, ?_⟩
  · rw [calcDistanceNp, NpVal.mul_fin_fin]
    exact NpVal.div_fin_of_ne _ _ (mul_ne_zero hw (by norm_num))
  · simp [weightedOfDisparity, distributeDisparity, calcRotationalDisparities,
      calcWeightedDisparity]
  · simp [calcDistanceNp]
  · rcases eq_or_ne nrm 0 with h | h <;>
      simp [h, get_frame_pointsNp, calculate_camera_space_position_of_featureNp,
        calculate_distance_from_disparityNp, calcVanishingPointNp, distributeDisparityNp,
        calcRotationalDisparitiesNp, calcWeightedDisparityNp, calcDistanceNp, sub2]

/-- Witness for C3 (amended) at the concrete zero-velocity input. -/
theorem C3_witness :
    (1 : ℚ) ≠ 0 ∧
    (20 : ℚ) * 20 = normSq (sub2 ((640 : ℚ) / 2, (360 : ℚ) / 2) (340, 180)) ∧
    (0 : ℚ) ≤ 20 ∧
    (calcDistanceNp (38199 / 1000) (NpVal.fin 1) = NpVal.fin ((38199 / 1000) / (1 * 10)) ∧
     weightedOfDisparity (0, 0, 0) (0, 0, 0) (-1, 0) (1, 0) = 0 ∧
     calcDistanceNp (38199 / 1000) (NpVal.fin 0) = NpVal.nonfin ∧
     get_frame_pointsNp true [NpVal.fin 0, NpVal.fin 0, NpVal.fin 0] (0, 0, 0) (0, 0, 0)
         (38199 / 1000) (640, 360) [((341, 180), (340, 180), 20)] =
       some [[NpVal.nonfin, NpVal.nonfin, NpVal.nonfin, NpVal.fin 341, NpVal.fin 180]]) :=
  ⟨by norm_num, by norm_num [normSq, sub2], by norm_num,
   C3_amended_nonfinite_depth_emitted (38199 / 1000) 1 (640, 360)
     [NpVal.fin 0, NpVal.fin 0, NpVal.fin 0] (341, 180) (340, 180) 20 (-1, 0) (1, 0)
     (by norm_num) (by norm_num [normSq, sub2]) (by norm_num)⟩

/-- C8 counterexample: superposition in `cameraVelocity` alone fails when the
angular contribution is nonzero.  At radial `(-1,0)`, disparity `(1,0)`,
`cameraAngularVelocity = (1,0,0)`: the weighted disparity at velocity
`(1,0,0) + (0,1,0) = (1,1,0)` is `0`, but the sum of the weighted
disparities at `(1,0,0)` and `(0,1,0)` is `0 + 1 = 1`, because the fixed
angular dot-product term is counted twice. -/
theorem C8_counterexample :
    IsVanishingDir (320, 180) (340, 180) (-1, 0) ∧
    add3 (1, 0, 0) (0, 1, 0) = ((1 : ℚ), (1 : ℚ), (0 : ℚ)) ∧
    weightedOfDisparity (add3 (1, 0, 0) (0, 1, 0)) (1, 0, 0) (-1, 0) (1, 0) ≠
      weightedOfDisparity (1, 0, 0) (1, 0, 0) (-1, 0) (1, 0) +
        weightedOfDisparity (0, 1, 0) (1, 0, 0) (-1, 0) (1, 0) := by
  refine ⟨⟨20, by norm_num [normSq, sub2, smul2, Prod.ext_iff]⟩, ?_, ?_⟩ <;>
    norm_num [add3, weightedOfDisparity, distributeDisparity, calcRotationalDisparities,
      calcWeightedDisparity, Prod.ext_iff]

/-- C8 (amended): for every fixed previous pixel distinct from the frame
centre with unit radial direction `r`, the weighted disparity equals the dot
product of `[x, y, z]` with `cameraVelocity` plus the dot product of
`[pitch, yaw, roll]` with `cameraAngularVelocity`; it is linear
(superposition and homogeneity) in the disparity vector with the velocities
fixed, and linear jointly in the pair `(cameraVelocity,
cameraAngularVelocity)`; superposition in `cameraVelocity` alone holds
exactly up to the fixed angular term (see the counterexample). -/
theorem C8_amended_bilinear (center origin r : Vec2) (h : IsVanishingDir center origin r)
    (camera_vel camera_rvel v v' av av' : Vec3) (d d' : Vec2) (c : ℚ) :
    weightedOfDisparity camera_vel camera_rvel r d =
      dot3 (distributeDisparity d r) camera_vel +
        dot3 ((calcRotationalDisparities r (distributeDisparity d r).1
                  (distributeDisparity d r).2.2).2.2,
              (calcRotationalDisparities r (distributeDisparity d r).1
                  (distributeDisparity d r).2.2).2.1,
              (calcRotationalDisparities r (distributeDisparity d r).1
                  (distributeDisparity d r).2.2).1) camera_rvel ∧
    weightedOfDisparity camera_vel camera_rvel r (add2 d d') =
      weightedOfDisparity camera_vel camera_rvel r d +
        weightedOfDisparity camera_vel camera_rvel r d' ∧
    weightedOfDisparity camera_vel camera_rvel r (smul2 c d) =
      c * weightedOfDisparity camera_vel camera_rvel r d ∧
    weightedOfDisparity (add3 v v') (add3 av av') r d =
      weightedOfDisparity v av r d + weightedOfDisparity v' av' r d ∧
    weightedOfDisparity (smul3 c v) (smul3 c av) r d =
      c * weightedOfDisparity v av r d := by
  refine ⟨?_, ?_, ?_, ?_, ?_⟩ <;>
    · simp [weightedOfDisparity, distributeDisparity, calcRotationalDisparities,
        calcWeightedDisparity, dot3, add2, smul2, add3, smul3]
      ring

/-- Witness for C8 (amended): superposition in the disparity at radial
`(-1,0)`, velocity `(0,0,1)`. -/
theorem C8_witness :
    IsVanishingDir (320, 180) (340, 180) (-1, 0) ∧
    weightedOfDisparity (0, 0, 1) (0, 0, 0) (-1, 0) (add2 (1, 0) (0, 1)) =
      weightedOfDisparity (0, 0, 1) (0, 0, 0) (-1, 0) (1, 0) +
        weightedOfDisparity (0, 0, 1) (0, 0, 0) (-1, 0) (0, 1) :=
  ⟨⟨20, by norm_num [normSq, sub2, smul2, Prod.ext_iff]⟩,
   (C8_amended_bilinear (320, 180) (340, 180) (-1, 0)
      ⟨20, by norm_num [normSq, sub2, smul2, Prod.ext_iff]⟩
      (0, 0, 1) (0, 0, 0) (1, 0, 0) (0, 1, 0) (1, 0, 0) (0, 0, 1) (1, 0) (0, 1) 2).2.1⟩

/-- C9: for every previous pixel distinct from the frame centre and every
input whose weighted disparity `w` is nonzero, the depth division is
defined and resolution succeeds with every component finite; the depth
`focalLength / (w * 10)` has the sign of `w` (the focal length being
positive), and the entry — also for negative `w`, hence negative depth — is
emitted as an ordinary result. -/
theorem C9_nonzero_weighted_resolves (camera_vel camera_rvel : Vec3)
    (focal_length : ℚ) (target_scale : Vec2) (camera_pos : List NpVal)
    (new old : Vec2) (nrm w : ℚ) (r : Vec2)
    (hfoc : 0 < focal_length) (hts1 : 0 < target_scale.1) (hts2 : 0 < target_scale.2)
    (hnrm0 : 0 < nrm)
    (hnrm : nrm * nrm = normSq (sub2 (target_scale.1 / 2, target_scale.2 / 2) old))
    (hr : r = ((target_scale.1 / 2 - old.1) / nrm, (target_scale.2 / 2 - old.2) / nrm))
    (hwdef : w = weightedOfDisparity camera_vel camera_rvel r (sub2 new old))
    (hw : w ≠ 0) :
    calculate_camera_space_position_of_featureNp camera_vel camera_rvel focal_length
        target_scale nrm new old =
      [NpVal.fin ((new.1 - target_scale.1 / 2) * (focal_length / (w * 10)) /
          (focal_length * target_scale.1) * 1000),
       NpVal.fin ((new.2 - target_scale.2 / 2) * (focal_length / (w * 10)) /
          (focal_length * target_scale.2) * 1000),
       NpVal.fin (focal_length / (w * 10)), NpVal.fin new.1, NpVal.fin new.2] ∧
    (0 < w ↔ 0 < focal_length / (w * 10)) ∧
    (w < 0 ↔ focal_length / (w * 10) < 0) ∧
    get_frame_pointsNp true camera_pos camera_vel camera_rvel focal_length target_scale
        [(new, old, nrm)] =
      some [[NpVal.fin ((new.1 - target_scale.1 / 2) * (focal_length / (w * 10)) /
               (focal_length * target_scale.1) * 1000),
             NpVal.fin ((new.2 - target_scale.2 / 2) * (focal_length / (w * 10)) /
               (focal_length * target_scale.2) * 1000),
             NpVal.fin (focal_length / (w * 10)), NpVal.fin new.1, NpVal.fin new.2]] := by
  subst hr hwdef
  have h10 : (0 : ℚ) < 10 := by norm_num
  have hd1 : focal_length * target_scale.1 ≠ 0 := (mul_pos hfoc hts1).ne'
  have hd2 : focal_length * target_scale.2 ≠ 0 := (mul_pos hfoc hts2).ne'
  have hw10 : weightedOfDisparity camera_vel camera_rvel
      ((target_scale.1 / 2 - old.1) / nrm, (target_scale.2 / 2 - old.2) / nrm)
      (sub2 new old) * 10 ≠ 0 := mul_ne_zero hw h10.ne'
  have hcam : calculate_camera_space_position_of_featureNp camera_vel camera_rvel focal_length
      target_scale nrm new old =
      [NpVal.fin ((new.1 - target_scale.1 / 2) *
          (focal_length / (weightedOfDisparity camera_vel camera_rvel
            ((target_scale.1 / 2 - old.1) / nrm, (target_scale.2 / 2 - old.2) / nrm)
            (sub2 new old) * 10)) / (focal_length * target_scale.1) * 1000),
       NpVal.fin ((new.2 - target_scale.2 / 2) *
          (focal_length / (weightedOfDisparity camera_vel camera_rvel
            ((target_scale.1 / 2 - old.1) / nrm, (target_scale.2 / 2 - old.2) / nrm)
            (sub2 new old) * 10)) / (focal_length * target_scale.2) * 1000),
       NpVal.fin (focal_length / (weightedOfDisparity camera_vel camera_rvel
            ((target_scale.1 / 2 - old.1) / nrm, (target_scale.2 / 2 - old.2) / nrm)
            (sub2 new old) * 10)),
       NpVal.fin new.1, NpVal.fin new.2] := by
    rw [calculate_camera_space_position_of_featureNp,
      distanceNp_eq_fin camera_vel camera_rvel focal_length target_scale nrm old
        (sub2 new old) hnrm0.ne']
    simp [calcDistanceNp, NpVal.div_fin_of_ne _ _ hw10, NpVal.div_fin_of_ne _ _ hd1,
      NpVal.div_fin_of_ne _ _ hd2]
  refine ⟨hcam, ?_, ?_, by simp [get_frame_pointsNp, hcam]⟩
  · constructor
    · intro hw0
      exact div_pos hfoc (mul_pos hw0 h10)
    · intro hd
      rcases lt_trichotomy (weightedOfDisparity camera_vel camera_rvel
          ((target_scale.1 / 2 - old.1) / nrm, (target_scale.2 / 2 - old.2) / nrm)
          (sub2 new old)) 0 with hneg | hz | hpos
      · exact absurd hd
          (not_lt.mpr (div_neg_of_pos_of_neg hfoc (mul_neg_of_neg_of_pos hneg h10)).le)
      · exact absurd hz hw
      · exact hpos
  · constructor
    · intro hneg
      exact div_neg_of_pos_of_neg hfoc (mul_neg_of_neg_of_pos hneg h10)
    · intro hd
      rcases lt_trichotomy (weightedOfDisparity camera_vel camera_rvel
          ((target_scale.1 / 2 - old.1) / nrm, (target_scale.2 / 2 - old.2) / nrm)
          (sub2 new old)) 0 with hneg | hz | hpos
      · exact hneg
      · exact absurd hz hw
      · exact absurd hd (not_lt.mpr (div_pos hfoc (mul_pos hpos h10)).le)

/-- Witness for C9 at `cameraVelocity = (0,0,-1)`: the weighted disparity is
`-1` and the feature resolves to a finite, negative depth that is emitted. -/
theorem C9_witness :
    (0 : ℚ) < 38199 / 1000 ∧ (0 : ℚ) < 640 ∧ (0 : ℚ) < 360 ∧ (0 : ℚ) < 20 ∧
    (20 : ℚ) * 20 = normSq (sub2 ((640 : ℚ) / 2, (360 : ℚ) / 2) (340, 180)) ∧
    ((-1 : ℚ), (0 : ℚ)) = (((640 : ℚ) / 2 - 340) / 20, ((360 : ℚ) / 2 - 180) / 20) ∧
    (-1 : ℚ) = weightedOfDisparity (0, 0, -1) (0, 0, 0) (-1, 0) (sub2 (341, 180) (340, 180)) ∧
    (-1 : ℚ) ≠ 0 ∧
    calculate_camera_space_position_of_featureNp (0, 0, -1) (0, 0, 0) (38199 / 1000)
        (640, 360) 20 (341, 180) (340, 180) =
      [NpVal.fin ((341 - (640 : ℚ) / 2) * ((38199 / 1000) / (-1 * 10)) /
          ((38199 / 1000) * 640) * 1000),
       NpVal.fin ((180 - (360 : ℚ) / 2) * ((38199 / 1000) / (-1 * 10)) /
          ((38199 / 1000) * 360) * 1000),
       NpVal.fin ((38199 / 1000) / (-1 * 10)), NpVal.fin 341, NpVal.fin 180] :=
  ⟨by norm_num, by norm_num, by norm_num, by norm_num, by norm_num [normSq, sub2],
   by norm_num [Prod.ext_iff],
   by norm_num [weightedOfDisparity, distributeDisparity, calcRotationalDisparities,
     calcWeightedDisparity, sub2],
   by norm_num,
   (C9_nonzero_weighted_resolves (0, 0, -1) (0, 0, 0) (38199 / 1000) (640, 360)
      [NpVal.fin 0, NpVal.fin 0, NpVal.fin 0] (341, 180) (340, 180) 20 (-1) (-1, 0)
      (by norm_num) (by norm_num) (by norm_num) (by norm_num) (by norm_num [normSq, sub2])
      (by norm_num [Prod.ext_iff])
      (by norm_num [weightedOfDisparity, distributeDisparity, calcRotationalDisparities,
        calcWeightedDisparity, sub2])
      (by norm_num)).1⟩

/-- C10: for every fixed previous pixel distinct from the frame centre with
unit radial direction `r` and every nonzero scalar `c`, scaling the
disparity by `c` scales the weighted disparity by `c` and divides the
computed distance by `c` whenever the distance is defined (nonzero weighted
disparity); in particular negating the disparity negates the distance. -/
theorem C10_disparity_scaling (center origin r : Vec2) (h : IsVanishingDir center origin r)
    (camera_vel camera_rvel : Vec3) (focal_length : ℚ) (d : Vec2) (c : ℚ) (hc : c ≠ 0)
    (hw : weightedOfDisparity camera_vel camera_rvel r d ≠ 0) :
    weightedOfDisparity camera_vel camera_rvel r (smul2 c d) =
      c * weightedOfDisparity camera_vel camera_rvel r d ∧
    calculate_distance_from_disparity camera_vel camera_rvel focal_length r (smul2 c d) =
      calculate_distance_from_disparity camera_vel camera_rvel focal_length r d / c ∧
    calculate_distance_from_disparity camera_vel camera_rvel focal_length r (smul2 (-1) d) =
      -calculate_distance_from_disparity camera_vel camera_rvel focal_length r d := by
  have hlin : ∀ e : ℚ, weightedOfDisparity camera_vel camera_rvel r (smul2 e d) =
      e * weightedOfDisparity camera_vel camera_rvel r d := by
    intro e
    simp only [weightedOfDisparity, distributeDisparity, calcRotationalDisparities,
      calcWeightedDisparity, smul2]
    ring
  have hdist : ∀ e : ℚ, calculate_distance_from_disparity camera_vel camera_rvel
      focal_length r (smul2 e d) =
      calculate_distance_from_disparity camera_vel camera_rvel focal_length r d / e := by
    intro e
    rw [calculate_distance_from_disparity, calculate_distance_from_disparity, hlin,
      calcDistance, calcDistance, div_div]
    congr 1
    ring
  refine ⟨hlin c, hdist c, ?_⟩
  rw [hdist (-1)]
  ring

/-- Witness for C10 at radial `(-1,0)`, disparity `(1,0)`, `c = 2`. -/
theorem C10_witness :
    IsVanishingDir (320, 180) (340, 180) (-1, 0) ∧ (2 : ℚ) ≠ 0 ∧
    weightedOfDisparity (0, 0, 1) (0, 0, 0) (-1, 0) (1, 0) ≠ 0 ∧
    calculate_distance_from_disparity (0, 0, 1) (0, 0, 0) (38199 / 1000) (-1, 0)
        (smul2 2 (1, 0)) =
      calculate_distance_from_disparity (0, 0, 1) (0, 0, 0) (38199 / 1000) (-1, 0) (1, 0) / 2 :=
  ⟨⟨20, by norm_num [normSq, sub2, smul2, Prod.ext_iff]⟩, by norm_num,
   by norm_num [weightedOfDisparity, distributeDisparity, calcRotationalDisparities,
     calcWeightedDisparity],
   (C10_disparity_scaling (320, 180) (340, 180) (-1, 0)
      ⟨20, by norm_num [normSq, sub2, smul2, Prod.ext_iff]⟩ (0, 0, 1) (0, 0, 0)
      (38199 / 1000) (1, 0) 2 (by norm_num)
      (by norm_num [weightedOfDisparity, distributeDisparity, calcRotationalDisparities,
        calcWeightedDisparity])).2.1⟩

end StructureFromMotion
